import Mathlib

/-!
Verification of the niwa optimistic-concurrency / conflict-resolution core
(`src/niwa/niwa.py`, class `Niwa`) against its natural-language specification.

The LMDB sub-databases are modelled as association lists with string keys,
mirroring the key encodings used by the source (`f"{node_id}:{agent_id}"` for
pending reads, `f"conflicts:{agent_id}"` for stored conflicts,
`f"{node_id}:v{version}"` for version snapshots).  Timestamps (`time.time()`)
are passed in explicitly as a `now : Nat` parameter.  Python floats used only
for the reported auto-merge confidence are modelled as rationals.
-/

namespace Niwa

/-- Lookup in an association list (first matching key), modelling `txn.get`. -/
def alookup {V : Type} (m : List (String × V)) (k : String) : Option V :=
  match m with
  | [] => none
  | p :: rest => if p.1 = k then some p.2 else alookup rest k

/-- Insert-or-replace in an association list, modelling `txn.put`. -/
def aput {V : Type} (m : List (String × V)) (k : String) (v : V) :
    List (String × V) :=
  match m with
  | [] => [(k, v)]
  | p :: rest => if p.1 = k then (k, v) :: rest else p :: aput rest k v

/-- Delete a key from an association list, modelling `txn.delete`. -/
def adel {V : Type} (m : List (String × V)) (k : String) : List (String × V) :=
  match m with
  | [] => []
  | p :: rest => if p.1 = k then adel rest k else p :: adel rest k

/-- Python list slice `l[i:j]`. -/
def sliceList {α : Type} (l : List α) (i j : Nat) : List α :=
  (l.drop i).take (j - i)

/-- Python list slice assignment `l[i:j] = new` (splice). -/
def spliceList {α : Type} (l : List α) (i j : Nat) (new : List α) : List α :=
  l.take i ++ new ++ l.drop j

/-- Python `l[-n:]`: the last `n` elements (the whole list when shorter). -/
def lastN {α : Type} (n : Nat) (l : List α) : List α :=
  l.drop (l.length - n)

/-- Python `'\n'.join(lines)`. -/
def joinLines : List String → String
  | [] => ""
  | l :: ls => ls.foldl (fun acc x => acc ++ "\n" ++ x) l

/-- Python `''.join(lines)`. -/
def joinAll (lines : List String) : String :=
  lines.foldl (fun acc x => acc ++ x) ""

/-- Split a character list at `'\n'` separators (the result list is never
empty; `n` separators give `n + 1` parts). -/
def splitNl : List Char → List (List Char)
  | [] => [[]]
  | c :: rest =>
    match splitNl rest with
    | [] => [[]]
    | l :: ls => if c = '\n' then [] :: l :: ls else (c :: l) :: ls

/-- Python `str.splitlines()` for `\n`-separated text (the only line
terminator the repository's content uses; `load_markdown` normalizes the
others away).  `""` gives `[]`, a trailing newline produces no empty line. -/
def splitlines (s : String) : List String :=
  let parts := (splitNl s.toList).map String.mk
  match parts.reverse with
  | [] => []
  | last :: revInit =>
    if last = "" then revInit.reverse else revInit.reverse ++ [last]

/-- Python `str.splitlines(keepends=True)` for `\n`-separated text. -/
def splitlinesKeep (s : String) : List String :=
  let parts := (splitNl s.toList).map String.mk
  match parts.reverse with
  | [] => []
  | last :: revInit =>
    let init := revInit.reverse.map (fun l => l ++ "\n")
    if last = "" then init else init ++ [last]

/-- Python whitespace for `str.strip()` (only these four characters occur in
the repository's content). -/
def isPyWs (c : Char) : Bool :=
  c = ' ' || c = '\t' || c = '\n' || c = '\r'

/-- Python `str.strip()`. -/
def pyTrim (s : String) : String :=
  String.mk (((s.toList.dropWhile isPyWs).reverse.dropWhile isPyWs).reverse)

/-- Worker for `pyReplace`: left-to-right non-overlapping replacement, with
fuel bounded by the subject's length. -/
def replaceAux (pat rep : List Char) : Nat → List Char → List Char
  | _, [] => []
  | 0, s => s
  | fuel + 1, c :: rest =>
    if pat ≠ [] ∧ (c :: rest).take pat.length = pat then
      rep ++ replaceAux pat rep fuel ((c :: rest).drop pat.length)
    else c :: replaceAux pat rep fuel rest

/-- Python `s.replace(pat, rep)` for a non-empty `pat` (the one call site,
`_attempt_heuristic_merge`, is unreachable with an empty base: an empty base
yields only zero-width inserts at position 0, which never overlap). -/
def pyReplace (s pat rep : String) : String :=
  String.mk (replaceAux pat.toList rep.toList s.toList.length s.toList)

/-! ### difflib.SequenceMatcher (no junk, sequences far below the autojunk
threshold of 200 elements) -/

/-- `j2len.get(j, 0)` on an integer-keyed dict modelled as an assoc list. -/
def lookup0 (m : List (Nat × Nat)) (k : Nat) : Nat :=
  match m.find? (fun p => p.1 = k) with
  | some p => p.2
  | none => 0

/-- Ascending list of indices `j ∈ [blo, bhi)` with `b[j] = x`
(difflib's `b2j[a[i]]` restricted to the window). -/
def jIndices (b : List String) (x : String) (blo bhi : Nat) : List Nat :=
  (List.range b.length).filter (fun j => decide (blo ≤ j ∧ j < bhi ∧ b.get? j = some x))

/-- `difflib.SequenceMatcher.find_longest_match` (junk-free case: the
post-loop junk-extension passes are no-ops).  Returns `(i, j, size)`. -/
def find_longest_match (a b : List String) (alo ahi blo bhi : Nat) :
    Nat × Nat × Nat :=
  let step := fun (acc : List (Nat × Nat) × (Nat × Nat × Nat)) (i : Nat) =>
    let js := jIndices b (a.getD i "") blo bhi
    let row := js.foldl
      (fun (acc2 : List (Nat × Nat) × (Nat × Nat × Nat)) j =>
        -- Python reads `j2len.get(j-1, 0)` where `j-1 = -1` (absent) when `j = 0`
        let kprev := if j = 0 then 0 else lookup0 acc.1 (j - 1)
        let k := kprev + 1
        let best := if k > acc2.2.2.2 then (i + 1 - k, j + 1 - k, k) else acc2.2
        ((j, k) :: acc2.1, best))
      ([], acc.2)
    row
  ((List.range' alo (ahi - alo)).foldl step ([], (alo, blo, 0))).2

/-- Recursive decomposition behind `get_matching_blocks`, with explicit fuel
(each recursive call strictly shrinks `(ahi - alo) + (bhi - blo)`, so the
fuel supplied by `get_matching_blocks` is never exhausted). -/
def matching_blocks_aux (a b : List String) :
    Nat → Nat → Nat → Nat → Nat → List (Nat × Nat × Nat)
  | 0, _, _, _, _ => []
  | fuel + 1, alo, ahi, blo, bhi =>
    let m := find_longest_match a b alo ahi blo bhi
    let i := m.1
    let j := m.2.1
    let k := m.2.2
    if k = 0 then []
    else
      matching_blocks_aux a b fuel alo i blo j ++ [(i, j, k)] ++
        matching_blocks_aux a b fuel (i + k) ahi (j + k) bhi

/-- `difflib.SequenceMatcher.get_matching_blocks` including the terminating
sentinel `(len(a), len(b), 0)`.  The stdlib's adjacent-block consolidation is
omitted: it only fuses touching `equal` runs and cannot change any non-equal
opcode, which is all the callers below consume. -/
def get_matching_blocks (a b : List String) : List (Nat × Nat × Nat) :=
  matching_blocks_aux a b (a.length + b.length + 1) 0 a.length 0 b.length ++
    [(a.length, b.length, 0)]

/-- One opcode `(tag, i1, i2, j1, j2)`; `tag` is one of `"replace"`,
`"delete"`, `"insert"`, `"equal"` exactly as difflib reports it. -/
structure Opcode where
  tag : String
  i1 : Nat
  i2 : Nat
  j1 : Nat
  j2 : Nat
deriving Repr, DecidableEq

/-- `difflib.SequenceMatcher.get_opcodes`. -/
def get_opcodes (a b : List String) : List Opcode :=
  ((get_matching_blocks a b).foldl
    (fun (acc : List Opcode × Nat × Nat) blk =>
      let ai := blk.1
      let bj := blk.2.1
      let size := blk.2.2
      let ans := acc.1
      let i := acc.2.1
      let j := acc.2.2
      let ans :=
        if i < ai ∧ j < bj then ans ++ [⟨"replace", i, ai, j, bj⟩]
        else if i < ai then ans ++ [⟨"delete", i, ai, j, bj⟩]
        else if j < bj then ans ++ [⟨"insert", i, ai, j, bj⟩]
        else ans
      let ans := if size ≠ 0 then ans ++ [⟨"equal", ai, ai + size, bj, bj + size⟩] else ans
      (ans, ai + size, bj + size))
    ([], 0, 0)).1

/-! ### Data model -/

/-- One `edit_history` entry; the `Created` entry has no `prev_version` key. -/
structure HistoryEntry where
  version : Nat
  agent : String
  timestamp : Nat
  summary : Option String
  prev_version : Option Nat
deriving Repr, DecidableEq

/-- A document node (the dict stored in the `nodes` sub-database).
`ntype` models the source dict key `type`. -/
structure Node where
  id : String
  ntype : String
  title : String
  content : String
  level : Nat
  parent_id : Option String
  children : List String
  summary : Option String
  version : Nat
  created_at : Nat
  updated_at : Nat
  last_agent : String
  edit_history : List HistoryEntry
deriving Repr, DecidableEq

/-- A pending-read record (the `pending` sub-database). -/
structure PendingRead where
  agent_id : String
  node_id : String
  read_version : Nat
  read_at : Nat
  base_content : String
deriving Repr, DecidableEq

/-- A full-content snapshot (the `history` sub-database). -/
structure VersionSnapshot where
  content : String
  agent : String
  timestamp : Nat
  summary : Option String
deriving Repr, DecidableEq

/-- One stored conflict summary (an element of the list kept under
`conflicts:{agent_id}` in the `meta` sub-database). -/
structure StoredConflict where
  node_id : String
  node_title : String
  your_base_version : Nat
  current_version : Nat
  your_content : String
  current_content : String
  auto_merge_possible : Bool
  auto_merged_content : Option String
  stored_at : Nat
deriving Repr, DecidableEq

/-- `models.ConflictType`. -/
inductive ConflictType where
  | none_
  | compatible
  | semantic_overlap
  | true_conflict
deriving Repr, DecidableEq

/-- One structured change record from `_extract_changes`; `tag` models the
source dict key `type` (a difflib opcode tag). -/
structure Change where
  tag : String
  old_start : Nat
  old_end : Nat
  new_start : Nat
  new_end : Nat
  old_lines : List String
  new_lines : List String
deriving Repr, DecidableEq

/-- One overlap record from `_find_overlaps`; `stop` models the source dict
key `end`. -/
structure OverlapRegion where
  start : Nat
  stop : Nat
  original : String
  yours : String
  theirs : String
  your_change_type : String
  their_change_type : String
deriving Repr, DecidableEq

/-- `models.ConflictAnalysis`.  The confidence float is modelled as a
rational; only the exactly-representable literals 0.95, 1.0, 0.8, 0.6, 0.0
ever flow into it. -/
structure ConflictAnalysis where
  conflict_type : ConflictType
  node_id : String
  node_title : String
  your_base_version : Nat
  current_version : Nat
  concurrent_edits_count : Int
  original_content : String
  your_content : String
  current_content : String
  your_changes : List Change
  their_changes : List Change
  overlapping_regions : List OverlapRegion
  your_agent_id : String
  other_agents : List String
  their_edit_summaries : List String
  auto_merge_possible : Bool
  auto_merged_content : Option String
  auto_merge_confidence : ℚ
deriving Repr, DecidableEq

/-- `models.EditResult`. -/
structure EditResult where
  success : Bool
  node_id : String
  new_version : Option Nat
  message : String
  conflict : Option ConflictAnalysis
deriving Repr, DecidableEq

/-- The four LMDB sub-databases of a `Niwa` instance.  Keys are the exact
strings the source encodes: `nodes` by node id, `history` by
`"{node_id}:v{version}"`, `pending` by `"{node_id}:{agent_id}"`, and `meta`
by `"conflicts:{agent_id}"`. -/
structure NiwaState where
  nodes : List (String × Node)
  history : List (String × VersionSnapshot)
  pending : List (String × PendingRead)
  meta : List (String × List StoredConflict)
deriving Repr, DecidableEq

/-! ### Change extraction, overlap analysis, merge engine -/

/-- `_extract_changes`. -/
def extract_changes (old new : String) : List Change :=
  let old_lines := splitlines old
  let new_lines := splitlines new
  (get_opcodes old_lines new_lines).filterMap (fun op =>
    if op.tag = "equal" then none
    else some { tag := op.tag, old_start := op.i1, old_end := op.i2,
                new_start := op.j1, new_end := op.j2,
                old_lines := sliceList old_lines op.i1 op.i2,
                new_lines := sliceList new_lines op.j1 op.j2 })

/-- `_ranges_overlap`: `r1[0] < r2[1] and r2[0] < r1[1]`. -/
def ranges_overlap (r1 r2 : Nat × Nat) : Bool :=
  decide (r1.1 < r2.2 ∧ r2.1 < r1.2)

/-- `_find_overlaps`. -/
def find_overlaps (your_changes their_changes : List Change)
    (base_content : String) : List OverlapRegion :=
  your_changes.flatMap (fun yc =>
    their_changes.filterMap (fun tc =>
      if ranges_overlap (yc.old_start, yc.old_end) (tc.old_start, tc.old_end) then
        let base_lines := splitlines base_content
        let start := min yc.old_start tc.old_start
        let stop := max yc.old_end tc.old_end
        some { start := start, stop := stop,
               original := if start < base_lines.length then
                             joinLines (sliceList base_lines start stop) else "",
               yours := joinLines yc.new_lines,
               theirs := joinLines tc.new_lines,
               your_change_type := yc.tag,
               their_change_type := tc.tag }
      else none))

/-- Python substring test `needle in hay` (character-level). -/
def strContains (hay needle : String) : Bool :=
  let h := hay.toList
  let n := needle.toList
  (List.range (h.length + 1)).any (fun i => (h.drop i).take n.length == n)

/-- One op queued by `_three_way_merge` (`(source, op, i1, i2, new_lines)`). -/
structure MergeOp where
  source : String
  tag : String
  i1 : Nat
  i2 : Nat
  new_lines : List String
deriving Repr, DecidableEq

/-- Stable insertion of one op into a list kept in descending `i1` order. -/
def insertOpDesc (x : MergeOp) : List MergeOp → List MergeOp
  | [] => [x]
  | y :: ys => if y.i1 ≤ x.i1 then x :: y :: ys else y :: insertOpDesc x ys

/-- Python's stable `list.sort(key=lambda x: x[2], reverse=True)`:
descending by `i1`, ties keep original order. -/
def sortOpsDesc : List MergeOp → List MergeOp
  | [] => []
  | x :: xs => insertOpDesc x (sortOpsDesc xs)

/-- `_three_way_merge`. -/
def three_way_merge (base yours theirs : String) : String :=
  let base_lines := splitlinesKeep base
  let your_lines := splitlinesKeep yours
  let their_lines := splitlinesKeep theirs
  let your_ops := (get_opcodes base_lines your_lines).filter (fun op => op.tag ≠ "equal")
  let their_ops := (get_opcodes base_lines their_lines).filter (fun op => op.tag ≠ "equal")
  let all_ops : List MergeOp :=
    your_ops.map (fun op => { source := "yours", tag := op.tag, i1 := op.i1, i2 := op.i2,
                              new_lines := sliceList your_lines op.j1 op.j2 }) ++
    their_ops.map (fun op => { source := "theirs", tag := op.tag, i1 := op.i1, i2 := op.i2,
                               new_lines := sliceList their_lines op.j1 op.j2 })
  let sorted := sortOpsDesc all_ops
  let final := sorted.foldl
    (fun (acc : List String × List (Nat × Nat)) mop =>
      let overlaps_applied := acc.2.any (fun ar => decide (mop.i1 < ar.2 ∧ ar.1 < mop.i2))
      if overlaps_applied then acc
      else
        let result :=
          if mop.tag = "replace" ∨ mop.tag = "delete" then
            spliceList acc.1 mop.i1 mop.i2 mop.new_lines
          else if mop.tag = "insert" then
            spliceList acc.1 mop.i1 mop.i1 mop.new_lines
          else acc.1
        (result, acc.2 ++ [(mop.i1, mop.i2)]))
    (base_lines, ([] : List (Nat × Nat)))
  joinAll final.1

/-- `_attempt_heuristic_merge`. -/
def attempt_heuristic_merge (base yours theirs : String)
    (overlaps : List OverlapRegion) : Option String :=
  if overlaps.all (fun o => o.your_change_type == "insert" && o.their_change_type == "insert") then
    some (theirs ++ "\n" ++ pyTrim (pyReplace yours base ""))
  else none

/-- `_classify_and_merge`; returns `(conflict_type, auto_merged_content,
confidence)`. -/
def classify_and_merge (base yours theirs : String)
    (_your_changes _their_changes : List Change) (overlaps : List OverlapRegion) :
    ConflictType × Option String × ℚ :=
  if overlaps = [] then
    (ConflictType.compatible, some (three_way_merge base yours theirs), 95/100)
  else if overlaps.all (fun o => pyTrim o.yours == pyTrim o.theirs) then
    (ConflictType.compatible, some theirs, 1)
  else if strContains (pyTrim theirs) (pyTrim yours) then
    (ConflictType.semantic_overlap, some theirs, 80/100)
  else if strContains (pyTrim yours) (pyTrim theirs) then
    (ConflictType.semantic_overlap, some yours, 80/100)
  else
    match attempt_heuristic_merge base yours theirs overlaps with
    | some merged => (ConflictType.semantic_overlap, some merged, 60/100)
    | none => (ConflictType.true_conflict, none, 0)

/-- Python truthiness of an optional string (`if entry.get('summary'):`). -/
def truthyStr : Option String → Bool
  | Option.none => false
  | Option.some s => s != ""

/-- Python f-string rendering of an optional string
(`f"{edit_summary}"` prints `None` for an absent summary). -/
def pyStr : Option String → String
  | Option.none => "None"
  | Option.some s => s

/-- Python `f"{conf:.0%}"`.  All confidences that reach this formatter are
integral percentages, where half-even and half-up rounding agree. -/
def pctStr (q : ℚ) : String :=
  toString (round (q * 100) : ℤ) ++ "%"

/-- `_analyze_conflict` (pure: its `txn` parameter is unused in the source).
`list(set(other_agents))` has unspecified order in Python; it is modelled as
membership-based deduplication. -/
def analyze_conflict (node : Node) (base_version : Nat)
    (base_content your_content your_agent_id : String) : ConflictAnalysis :=
  let current_version := node.version
  let current_content := node.content
  let relevant := node.edit_history.filter
    (fun e => decide (base_version < e.version) && (e.agent != your_agent_id))
  let other_agents := relevant.map (fun e => e.agent)
  let their_summaries := (relevant.filter (fun e => truthyStr e.summary)).map
    (fun e => e.agent ++ ": " ++ e.summary.getD "")
  let your_changes := extract_changes base_content your_content
  let their_changes := extract_changes base_content current_content
  let overlaps := find_overlaps your_changes their_changes base_content
  let cam := classify_and_merge base_content your_content current_content
    your_changes their_changes overlaps
  { conflict_type := cam.1
    node_id := node.id
    node_title := node.title
    your_base_version := base_version
    current_version := current_version
    concurrent_edits_count := (current_version : Int) - (base_version : Int)
    original_content := base_content
    your_content := your_content
    current_content := current_content
    your_changes := your_changes
    their_changes := their_changes
    overlapping_regions := overlaps
    your_agent_id := your_agent_id
    other_agents := other_agents.dedup
    their_edit_summaries := their_summaries
    auto_merge_possible := cam.2.1.isSome
    auto_merged_content := cam.2.1
    auto_merge_confidence := cam.2.2 }

/-! ### Node store operations -/

/-- A failing `EditResult` with the given message. -/
def failResult (node_id msg : String) : EditResult :=
  { success := false, node_id := node_id, new_version := none,
    message := msg, conflict := none }

/-- `_apply_edit`. -/
def apply_edit (st : NiwaState) (node : Node) (new_content : String)
    (agent_id : String) (edit_summary : Option String) (now : Nat) :
    EditResult × NiwaState :=
  let old_version := node.version
  let entry : HistoryEntry :=
    { version := node.version + 1, agent := agent_id, timestamp := now,
      summary := edit_summary, prev_version := some old_version }
  let node' : Node :=
    { node with
      content := new_content,
      version := node.version + 1,
      updated_at := now,
      last_agent := agent_id,
      edit_history := lastN 20 (node.edit_history ++ [entry]) }
  let nodes := aput st.nodes node'.id node'
  let history := aput st.history (node'.id ++ ":v" ++ toString node'.version)
    { content := new_content, agent := agent_id, timestamp := now,
      summary := edit_summary }
  ({ success := true, node_id := node'.id, new_version := some node'.version,
     message := "Edit applied. Version: " ++ toString old_version ++ " -> " ++
       toString node'.version,
     conflict := none },
   { st with nodes := nodes, history := history })

/-- `create_node`. -/
def create_node (st : NiwaState) (node_id node_type title content : String)
    (level : Nat) (parent_id : Option String) (agent_id : String) (now : Nat) :
    Bool × NiwaState :=
  match alookup st.nodes node_id with
  | some _ => (false, st)
  | none =>
    let node : Node :=
      { id := node_id, ntype := node_type, title := title, content := content,
        level := level, parent_id := parent_id, children := [], summary := none,
        version := 1, created_at := now, updated_at := now, last_agent := agent_id,
        edit_history := [{ version := 1, agent := agent_id, timestamp := now,
                           summary := some "Created", prev_version := none }] }
    let nodes := aput st.nodes node_id node
    let nodes :=
      match parent_id with
      | some pid =>
        -- Python `if parent_id:` is false for the empty string
        if pid = "" then nodes
        else
          match alookup nodes pid with
          | some parent =>
            if node_id ∈ parent.children then nodes
            else aput nodes pid { parent with children := parent.children ++ [node_id] }
          | none => nodes
      | none => nodes
    (true, { st with nodes := nodes })

/-- `read_for_edit`. -/
def read_for_edit (st : NiwaState) (node_id agent_id : String) (now : Nat) :
    Option Node × NiwaState :=
  match alookup st.nodes node_id with
  | none => (none, st)
  | some node =>
    let pending := aput st.pending (node_id ++ ":" ++ agent_id)
      { agent_id := agent_id, node_id := node_id, read_version := node.version,
        read_at := now, base_content := node.content }
    let ckey := "conflicts:" ++ agent_id
    let meta :=
      match alookup st.meta ckey with
      | none => st.meta
      | some cs =>
        let cs' := cs.filter (fun c => c.node_id != node_id)
        if cs' = [] then adel st.meta ckey else aput st.meta ckey cs'
    (some node, { st with pending := pending, meta := meta })

/-- `edit_node`. -/
def edit_node (st : NiwaState) (node_id new_content agent_id : String)
    (edit_summary : Option String) (resolution_strategy : String) (now : Nat) :
    EditResult × NiwaState :=
  match alookup st.nodes node_id with
  | none => (failResult node_id ("Node " ++ node_id ++ " not found"), st)
  | some node =>
    let current_version := node.version
    let current_content := node.content
    let pkey := node_id ++ ":" ++ agent_id
    let bb : Nat × String × NiwaState :=
      match alookup st.pending pkey with
      | none => (current_version, current_content, st)
      | some pending => (pending.read_version, pending.base_content,
          { st with pending := adel st.pending pkey })
    let base_version := bb.1
    let base_content := bb.2.1
    let st1 := bb.2.2
    if base_version = current_version then
      apply_edit st1 node new_content agent_id edit_summary now
    else
      let conflict := analyze_conflict node base_version base_content new_content agent_id
      if resolution_strategy = "force" then
        apply_edit st1 node new_content agent_id
          (some (pyStr edit_summary ++ " [FORCED - overwrote v" ++
            toString current_version ++ "]")) now
      else if resolution_strategy = "auto" ∧ conflict.auto_merge_possible then
        apply_edit st1 node (conflict.auto_merged_content.getD "") agent_id
          (some ("Auto-merged: " ++ pyStr edit_summary)) now
      else
        ({ success := false, node_id := node_id, new_version := none,
           message := "Conflict detected - resolution required",
           conflict := some conflict }, st1)

/-- `resolve_conflict`. -/
def resolve_conflict (st : NiwaState) (node_id resolution agent_id : String)
    (manual_content : Option String) (conflict : Option ConflictAnalysis)
    (now : Nat) : EditResult × NiwaState :=
  match alookup st.nodes node_id with
  | none => (failResult node_id "Node not found", st)
  | some node =>
    let staleMsg : Option String :=
      match conflict with
      | some c =>
        if node.version ≠ c.current_version then
          some ("Version changed during resolution. Expected " ++
            toString c.current_version ++ ", got " ++ toString node.version ++
            ". Please retry.")
        else none
      | none => none
    match staleMsg with
    | some msg => (failResult node_id msg, st)
    | none =>
      if resolution = "ACCEPT_YOURS" then
        match conflict with
        | none => (failResult node_id "Need conflict object for ACCEPT_YOURS", st)
        | some c =>
          apply_edit st node c.your_content agent_id
            (some ("Conflict resolved: accepted " ++ agent_id ++ "'s version")) now
      else if resolution = "ACCEPT_THEIRS" then
        ({ success := true, node_id := node_id, new_version := some node.version,
           message := "Conflict resolved: kept current version", conflict := none }, st)
      else if resolution = "ACCEPT_AUTO_MERGE" then
        match conflict with
        | none => (failResult node_id "No auto-merge available", st)
        | some c =>
          match c.auto_merged_content with
          | none => (failResult node_id "No auto-merge available", st)
          | some m =>
            -- Python `not conflict.auto_merged_content` is also true for ""
            if m = "" then (failResult node_id "No auto-merge available", st)
            else apply_edit st node m agent_id
              (some ("Conflict resolved: auto-merged (confidence: " ++
                pctStr c.auto_merge_confidence ++ ")")) now
      else if resolution = "MANUAL_MERGE" then
        match manual_content with
        | none => (failResult node_id "Manual content required for MANUAL_MERGE", st)
        | some m =>
          -- Python `not manual_content` is also true for ""
          if m = "" then (failResult node_id "Manual content required for MANUAL_MERGE", st)
          else apply_edit st node m agent_id
            (some ("Conflict resolved: manual merge by " ++ agent_id)) now
      else (failResult node_id ("Unknown resolution: " ++ resolution), st)

/-- `update_title`. -/
def update_title (st : NiwaState) (node_id new_title : String)
    (_agent_id : String) (now : Nat) : EditResult × NiwaState :=
  match alookup st.nodes node_id with
  | none => (failResult node_id "Node not found", st)
  | some node =>
    ({ success := true, node_id := node_id, new_version := none,
       message := "Title updated", conflict := none },
     { st with nodes := aput st.nodes node_id { node with title := new_title, updated_at := now } })

/-- `update_summary`. -/
def update_summary (st : NiwaState) (node_id summary : String)
    (_agent_id : String) (now : Nat) : EditResult × NiwaState :=
  match alookup st.nodes node_id with
  | none => (failResult node_id "Node not found", st)
  | some node =>
    ({ success := true, node_id := node_id, new_version := none,
       message := "Summary updated", conflict := none },
     { st with nodes := aput st.nodes node_id { node with summary := some summary, updated_at := now } })

/-! ### Concrete stores used by the scenario theorems and witnesses -/

/-- A freshly opened store with no nodes. -/
def emptyState : NiwaState := { nodes := [], history := [], pending := [], meta := [] }

/-- Scenario of spec §8.1: three-line node, two readers at v1. -/
def c5_st1 : NiwaState :=
  (create_node emptyState "n1" "heading" "Doc" "L1\nL2\nL3" 1 none "system" 0).2

def c5_st2 : NiwaState := (read_for_edit c5_st1 "n1" "A" 1).2

def c5_st3 : NiwaState := (read_for_edit c5_st2 "n1" "B" 2).2

/-- Agent A replaces line 1 against base v1. -/
def c5_editA : EditResult × NiwaState :=
  edit_node c5_st3 "n1" "A1\nL2\nL3" "A" none "prompt" 3

/-- Agent B replaces line 3 against base v1, default `prompt` strategy:
returns the `ConflictAnalysis` produced by the merge engine. -/
def c5_editB_prompt : EditResult × NiwaState :=
  edit_node c5_editA.2 "n1" "L1\nL2\nB3" "B" none "prompt" 4

/-- Agent B replaces line 3 against base v1 with the `auto` strategy. -/
def c5_editB : EditResult × NiwaState :=
  edit_node c5_editA.2 "n1" "L1\nL2\nB3" "B" none "auto" 4

/-- Two-line node; agents A and B both read v1 and each insert one new line
between the two existing lines (zero-width change at the same position). -/
def c1_st1 : NiwaState :=
  (create_node emptyState "n1" "heading" "Doc" "L1\nL2" 1 none "system" 0).2

def c1_st2 : NiwaState := (read_for_edit c1_st1 "n1" "A" 1).2

def c1_st3 : NiwaState := (read_for_edit c1_st2 "n1" "B" 2).2

/-- Agent A inserts `X` at line index 1. -/
def c1_editA : EditResult × NiwaState :=
  edit_node c1_st3 "n1" "L1\nX\nL2" "A" none "prompt" 3

/-- Agent B inserts `Y` at the same line index 1, `auto` strategy. -/
def c1_editB : EditResult × NiwaState :=
  edit_node c1_editA.2 "n1" "L1\nY\nL2" "B" none "auto" 4

/-- A concrete freshly created node (as `create_node` would store it). -/
def nodeA : Node :=
  { id := "n1"
    ntype := "heading"
    title := "T"
    content := "L1\nL2\nL3"
    level := 1
    parent_id := none
    children := []
    summary := none
    version := 1
    created_at := 0
    updated_at := 0
    last_agent := "system"
    edit_history := [{ version := 1, agent := "system", timestamp := 0,
                       summary := some "Created", prev_version := none }] }

/-- The same node after one concurrent edit (version 2). -/
def nodeB : Node :=
  { nodeA with version := 2, content := "C1\nL2\nL3", last_agent := "A" }

/-- A store holding only `nodeA`. -/
def stW : NiwaState :=
  { nodes := [("n1", nodeA)], history := [], pending := [], meta := [] }

/-- Agent B's pending read of `"n1"` taken at version 1. -/
def pendB : PendingRead :=
  { agent_id := "B", node_id := "n1", read_version := 1, read_at := 0,
    base_content := "L1\nL2\nL3" }

/-- A store where the node moved to version 2 while agent B still holds a
pending read at version 1. -/
def stW2 : NiwaState :=
  { nodes := [("n1", nodeB)], history := [], pending := [("n1:B", pendB)],
    meta := [] }

/-- A concrete conflict snapshot recorded against current version 2
(stale once the node is back at version 1 in `stW`). -/
def cfW : ConflictAnalysis :=
  { conflict_type := ConflictType.true_conflict
    node_id := "n1"
    node_title := "T"
    your_base_version := 1
    current_version := 2
    concurrent_edits_count := 1
    original_content := "L1\nL2\nL3"
    your_content := "Y1\nL2\nL3"
    current_content := "C1\nL2\nL3"
    your_changes := []
    their_changes := []
    overlapping_regions := []
    your_agent_id := "B"
    other_agents := ["A"]
    their_edit_summaries := []
    auto_merge_possible := false
    auto_merged_content := none
    auto_merge_confidence := 0 }

/-- The same conflict snapshot referencing current version 1 (matches
`nodeA`). -/
def cfW1 : ConflictAnalysis := { cfW with current_version := 1 }

/-- The node value `_apply_edit` writes back for `node` (its internal
mutation, named so the lemmas below can refer to it). -/
def appliedNode (n : Node) (c a : String) (s : Option String) (now : Nat) : Node :=
  { n with
    content := c
    version := n.version + 1
    updated_at := now
    last_agent := a
    edit_history := lastN 20 (n.edit_history ++
      [{ version := n.version + 1, agent := a, timestamp := now,
         summary := s, prev_version := some n.version }]) }

end Niwa

namespace Niwa

set_option maxRecDepth 100000

theorem alookup_aput_self {V : Type} (m : List (String × V)) (k : String) (v : V) :
    alookup (aput m k v) k = some v := by
  induction m with
  | nil => simp [aput, alookup]
  | cons p rest ih =>
    by_cases h : p.1 = k
    · simp [aput, alookup, h]
    · simp [aput, alookup, h, ih]

theorem alookup_aput_ne {V : Type} (m : List (String × V)) (k k' : String) (v : V)
    (h : k' ≠ k) : alookup (aput m k v) k' = alookup m k' := by
  induction m with
  | nil => simp [aput, alookup, Ne.symm h]
  | cons p rest ih =>
    by_cases hp : p.1 = k
    · subst hp
      simp [aput, alookup, Ne.symm h]
    · simp [aput, alookup, hp, ih]

theorem alookup_adel_self {V : Type} (m : List (String × V)) (k : String) :
    alookup (adel m k) k = none := by
  induction m with
  | nil => simp [adel, alookup]
  | cons p rest ih =>
    by_cases h : p.1 = k
    · simp [adel, h, ih]
    · simp [adel, alookup, h, ih]

theorem alookup_adel_ne {V : Type} (m : List (String × V)) (k k' : String)
    (h : k' ≠ k) : alookup (adel m k) k' = alookup m k' := by
  induction m with
  | nil => simp [adel]
  | cons p rest ih =>
    by_cases hp : p.1 = k
    · subst hp
      simp [adel, alookup, Ne.symm h, ih]
    · simp [adel, alookup, hp, ih]

theorem apply_edit_nodes_lookup (st : NiwaState) (n : Node) (c a : String)
    (s : Option String) (now : Nat) :
    alookup (apply_edit st n c a s now).2.nodes n.id = some (appliedNode n c a s now) := by
  simp only [apply_edit, appliedNode]
  exact alookup_aput_self _ _ _

/-- C1 counterexample: the code's `_ranges_overlap` is a strict half-open
interval test, so two zero-width ranges at the same position do NOT overlap
(`5 < 5` is false); consequently, when agents A and B both insert a line at
the identical position (both changes are pure inserts with
`old_range = [1,1)`), the overlap analyzer reports no overlap and agent B's
edit under the `auto` strategy is applied as a silent auto-merge — it
succeeds with no conflict reported, contradicting the claim. -/
theorem c1_counterexample :
    ranges_overlap (5, 5) (5, 5) = false ∧
    extract_changes "L1\nL2" "L1\nY\nL2" =
      [{ tag := "insert", old_start := 1, old_end := 1, new_start := 1,
         new_end := 2, old_lines := [], new_lines := ["Y"] }] ∧
    extract_changes "L1\nL2" "L1\nX\nL2" =
      [{ tag := "insert", old_start := 1, old_end := 1, new_start := 1,
         new_end := 2, old_lines := [], new_lines := ["X"] }] ∧
    find_overlaps (extract_changes "L1\nL2" "L1\nY\nL2")
      (extract_changes "L1\nL2" "L1\nX\nL2") "L1\nL2" = [] ∧
    c1_editB.1.success = true ∧
    c1_editB.1.conflict = none ∧
    (alookup c1_editB.2.nodes "n1").map (fun n => (n.content, n.version)) =
      some ("L1\nX\nY\nL2", 3) := by
  decide

/-- C1 amended: two zero-width change ranges are never considered
overlapping by `_ranges_overlap` (in particular `[5,5)` vs `[5,5)`), so an
edit where both agents insert at the same point is classified compatible
with an auto-merge available and is silently auto-merged under the `auto`
strategy (under `prompt` it is reported as a version conflict that carries
the auto-merge suggestion). -/
theorem c1_amended :
    (∀ p q : Nat, ranges_overlap (p, p) (q, q) = false) ∧
    c1_editB.1.success = true ∧
    c1_editB.1.conflict = none ∧
    (alookup c1_editB.2.nodes "n1").map (fun n => (n.content, n.version)) =
      some ("L1\nX\nY\nL2", 3) := by
  refine ⟨fun p q => ?_, by decide, by decide, by decide⟩
  simp only [ranges_overlap, decide_eq_false_iff_not]
  omega

/-- C5: with two edits of the same base touching disjoint line ranges, the
merge engine classifies the situation as compatible with an auto-merge
available whose content merges both sides; concretely, on a node created
with `"L1\nL2\nL3"` (v1) read by A and B at v1, A's replacement of line 1
succeeds to v2, and B's replacement of line 3 yields a compatible analysis
with auto-merge `"A1\nL2\nB3"` and, under the `auto` strategy, lands as v3
with exactly that content. -/
theorem c5_disjoint_edits_auto_merge :
    c5_editA.1.success = true ∧
    c5_editA.1.new_version = some 2 ∧
    (c5_editB_prompt.1.conflict.map (fun c =>
      (c.conflict_type, c.auto_merge_possible, c.auto_merged_content))) =
      some (ConflictType.compatible, true, some "A1\nL2\nB3") ∧
    c5_editB.1.success = true ∧
    c5_editB.1.new_version = some 3 ∧
    (alookup c5_editB.2.nodes "n1").map (fun n => (n.content, n.version)) =
      some ("A1\nL2\nB3", 3) := by
  decide

/-- C2: every successful content mutation bumps the node's version by
exactly 1 — both a successful `edit_node` call and a `resolve_conflict`
call that writes content (every success path other than `ACCEPT_THEIRS`
goes through `_apply_edit`) store a node whose version is the old version
plus one, so versions never decrease and never skip on success. -/
theorem c2_version_bumps_by_exactly_one (st : NiwaState) (node_id : String) (n : Node)
    (hn : alookup st.nodes node_id = some n) (hid : n.id = node_id)
    (c a : String) (s : Option String) (strat : String)
    (r ag : String) (mc : Option String) (cf : Option ConflictAnalysis) (now : Nat) :
    ((edit_node st node_id c a s strat now).1.success = true →
      ∃ n', alookup (edit_node st node_id c a s strat now).2.nodes node_id = some n' ∧
        n'.version = n.version + 1) ∧
    ((resolve_conflict st node_id r ag mc cf now).1.success = true →
      r ≠ "ACCEPT_THEIRS" →
      ∃ n', alookup (resolve_conflict st node_id r ag mc cf now).2.nodes node_id = some n' ∧
        n'.version = n.version + 1) := by
  subst hid
  constructor
  · intro hs
    unfold edit_node at hs ⊢
    rw [hn] at hs ⊢
    rcases hpd : alookup st.pending (n.id ++ ":" ++ a) with _ | p
    · simp only [hpd] at hs ⊢
      exact ⟨_, apply_edit_nodes_lookup st n c a s now, rfl⟩
    · simp only [hpd] at hs ⊢
      by_cases hv : p.read_version = n.version
      · rw [if_pos hv] at hs ⊢
        exact ⟨_, apply_edit_nodes_lookup _ n c a s now, rfl⟩
      · rw [if_neg hv] at hs ⊢
        by_cases hf : strat = "force"
        · rw [if_pos hf] at hs ⊢
          exact ⟨_, apply_edit_nodes_lookup _ n c a _ now, rfl⟩
        · rw [if_neg hf] at hs ⊢
          by_cases ha : strat = "auto" ∧
              (analyze_conflict n p.read_version p.base_content c a).auto_merge_possible = true
          · rw [if_pos ha] at hs ⊢
            exact ⟨_, apply_edit_nodes_lookup _ n _ a _ now, rfl⟩
          · rw [if_neg ha] at hs
            exact absurd hs (by simp)
  · intro hs hr
    unfold resolve_conflict at hs ⊢
    rw [hn] at hs ⊢
    rcases cf with _ | cfc
    · simp only [] at hs ⊢
      by_cases hy : r = "ACCEPT_YOURS"
      · rw [if_pos hy] at hs
        simp [failResult] at hs
      · rw [if_neg hy] at hs ⊢
        rw [if_neg hr] at hs ⊢
        by_cases hm : r = "ACCEPT_AUTO_MERGE"
        · rw [if_pos hm] at hs
          simp [failResult] at hs
        · rw [if_neg hm] at hs ⊢
          by_cases hmm : r = "MANUAL_MERGE"
          · rw [if_pos hmm] at hs ⊢
            rcases mc with _ | m
            · simp [failResult] at hs
            · simp only [] at hs ⊢
              by_cases hme : m = ""
              · rw [if_pos hme] at hs
                simp [failResult] at hs
              · rw [if_neg hme] at hs ⊢
                exact ⟨_, apply_edit_nodes_lookup _ n m ag _ now, rfl⟩
          · rw [if_neg hmm] at hs
            simp [failResult] at hs
    · simp only [] at hs ⊢
      by_cases hstale : n.version ≠ cfc.current_version
      · rw [if_pos hstale] at hs
        simp only [] at hs
        simp [failResult] at hs
      · rw [if_neg hstale] at hs ⊢
        simp only [] at hs ⊢
        by_cases hy : r = "ACCEPT_YOURS"
        · rw [if_pos hy] at hs ⊢
          exact ⟨_, apply_edit_nodes_lookup _ n _ ag _ now, rfl⟩
        · rw [if_neg hy] at hs ⊢
          rw [if_neg hr] at hs ⊢
          by_cases hm : r = "ACCEPT_AUTO_MERGE"
          · rw [if_pos hm] at hs ⊢
            rcases ham : cfc.auto_merged_content with _ | am
            · rw [ham] at hs
              simp [failResult] at hs
            · rw [ham] at hs
              simp only [] at hs ⊢
              by_cases hae : am = ""
              · rw [if_pos hae] at hs
                simp [failResult] at hs
              · rw [if_neg hae] at hs ⊢
                exact ⟨_, apply_edit_nodes_lookup _ n am ag _ now, rfl⟩
          · rw [if_neg hm] at hs ⊢
            by_cases hmm : r = "MANUAL_MERGE"
            · rw [if_pos hmm] at hs ⊢
              rcases mc with _ | m
              · simp [failResult] at hs
              · simp only [] at hs ⊢
                by_cases hme : m = ""
                · rw [if_pos hme] at hs
                  simp [failResult] at hs
                · rw [if_neg hme] at hs ⊢
                  exact ⟨_, apply_edit_nodes_lookup _ n m ag _ now, rfl⟩
            · rw [if_neg hmm] at hs
              simp [failResult] at hs

/-- C3: if the agent's base version equals the node's current version —
its pending read was taken at the current version, or no pending read
exists so the current version is used as base — then `edit_node` succeeds
directly for any strategy, applies the new content with a version bump,
and performs no conflict analysis (the result carries no conflict). -/
theorem c3_caught_up_edit_succeeds (st : NiwaState) (node_id : String) (n : Node)
    (hn : alookup st.nodes node_id = some n) (hid : n.id = node_id)
    (c agent_id : String) (s : Option String) (strat : String) (now : Nat)
    (hp : ∀ p : PendingRead, alookup st.pending (node_id ++ ":" ++ agent_id) = some p →
      p.read_version = n.version) :
    (edit_node st node_id c agent_id s strat now).1.success = true ∧
    (edit_node st node_id c agent_id s strat now).1.conflict = none ∧
    ∃ n', alookup (edit_node st node_id c agent_id s strat now).2.nodes node_id = some n' ∧
      n'.content = c ∧ n'.version = n.version + 1 := by
  unfold edit_node
  rw [hn]
  rcases hpd : alookup st.pending (node_id ++ ":" ++ agent_id) with _ | p
  · simp only [hpd]
    refine ⟨rfl, rfl, ?_⟩
    subst hid
    exact ⟨_, apply_edit_nodes_lookup st n c agent_id s now, rfl, rfl⟩
  · simp only [hpd]
    have hv := hp p hpd
    simp only [hv, if_pos rfl]
    refine ⟨rfl, rfl, ?_⟩
    subst hid
    exact ⟨_, apply_edit_nodes_lookup _ n c agent_id s now, rfl, rfl⟩

/-- C4: resolving with a supplied conflict snapshot whose recorded
`current_version` differs from the node's live version fails with the
staleness message reporting the expected and actual versions, for any
requested resolution kind, and leaves the entire store (node, content,
history, pending, conflicts) unchanged. -/
theorem c4_stale_resolve_fails (st : NiwaState) (node_id : String) (n : Node)
    (hn : alookup st.nodes node_id = some n) (resolution agent_id : String)
    (mc : Option String) (cf : ConflictAnalysis) (now : Nat)
    (hv : n.version ≠ cf.current_version) :
    (resolve_conflict st node_id resolution agent_id mc (some cf) now).1.success = false ∧
    (resolve_conflict st node_id resolution agent_id mc (some cf) now).1.message =
      "Version changed during resolution. Expected " ++ toString cf.current_version ++
        ", got " ++ toString n.version ++ ". Please retry." ∧
    (resolve_conflict st node_id resolution agent_id mc (some cf) now).2 = st := by
  unfold resolve_conflict
  rw [hn]
  simp only []
  rw [if_pos hv]
  exact ⟨rfl, rfl, rfl⟩

/-- C7: an `edit_node` call with the default `prompt` strategy that detects
a version mismatch returns an unsuccessful result carrying a conflict and
mutates neither the nodes map (so the node's version, content and edit
history are exactly as before) nor the history or conflict stores; no part
of the submitted content is applied. -/
theorem c7_prompt_conflict_leaves_node_untouched (st : NiwaState) (node_id : String)
    (n : Node) (hn : alookup st.nodes node_id = some n) (p : PendingRead)
    (c agent_id : String) (s : Option String) (now : Nat)
    (hp : alookup st.pending (node_id ++ ":" ++ agent_id) = some p)
    (hv : p.read_version ≠ n.version) :
    (edit_node st node_id c agent_id s "prompt" now).1.success = false ∧
    (∃ ca, (edit_node st node_id c agent_id s "prompt" now).1.conflict = some ca) ∧
    (edit_node st node_id c agent_id s "prompt" now).2.nodes = st.nodes ∧
    (edit_node st node_id c agent_id s "prompt" now).2.history = st.history ∧
    (edit_node st node_id c agent_id s "prompt" now).2.meta = st.meta := by
  unfold edit_node
  rw [hn]
  simp only [hp]
  rw [if_neg hv]
  rw [if_neg (by decide : ¬("prompt" = "force"))]
  rw [if_neg (fun h => absurd h.1 (by decide))]
  exact ⟨rfl, ⟨_, rfl⟩, rfl, rfl, rfl⟩

/-- C6: for an existing node, `resolve_conflict` with `ACCEPT_THEIRS` (and a
conflict snapshot that is absent or matches the live version) returns
success with the unchanged version and leaves the whole store untouched (no
version bump, no history entry), so a second agent's conflict snapshot
referencing that same version can still be resolved afterwards (here via
`ACCEPT_YOURS`) without a staleness failure. -/
theorem c6_accept_theirs_is_noop (st : NiwaState) (node_id : String) (n : Node)
    (hn : alookup st.nodes node_id = some n) (agent_id agent2 : String)
    (mc mc2 : Option String) (cf : Option ConflictAnalysis)
    (hcf : ∀ cc, cf = some cc → cc.current_version = n.version)
    (cf2 : ConflictAnalysis) (hcf2 : cf2.current_version = n.version) (now now2 : Nat) :
    (resolve_conflict st node_id "ACCEPT_THEIRS" agent_id mc cf now).1.success = true ∧
    (resolve_conflict st node_id "ACCEPT_THEIRS" agent_id mc cf now).1.new_version =
      some n.version ∧
    (resolve_conflict st node_id "ACCEPT_THEIRS" agent_id mc cf now).2 = st ∧
    (resolve_conflict (resolve_conflict st node_id "ACCEPT_THEIRS" agent_id mc cf now).2
      node_id "ACCEPT_YOURS" agent2 mc2 (some cf2) now2).1.success = true := by
  have key : resolve_conflict st node_id "ACCEPT_THEIRS" agent_id mc cf now =
      ({ success := true, node_id := node_id, new_version := some n.version,
         message := "Conflict resolved: kept current version", conflict := none }, st) := by
    unfold resolve_conflict
    rw [hn]
    rcases cf with _ | cc
    · simp only []
      rw [if_neg (by decide : ¬("ACCEPT_THEIRS" = "ACCEPT_YOURS"))]
      rw [if_pos trivial]
    · have hc := hcf cc rfl
      simp only []
      rw [if_neg (by simp [hc])]
      simp only []
      rw [if_neg (by decide : ¬("ACCEPT_THEIRS" = "ACCEPT_YOURS"))]
      rw [if_pos trivial]
  have second : (resolve_conflict st node_id "ACCEPT_YOURS" agent2 mc2 (some cf2) now2).1.success =
      true := by
    unfold resolve_conflict
    rw [hn]
    simp only []
    rw [if_neg (by simp [hcf2])]
    simp only []
    rw [if_pos trivial]
    rfl
  refine ⟨by rw [key], by rw [key], by rw [key], ?_⟩
  rw [key]
  exact second

/-- C8: for an existing node, `read_for_edit` returns the node and leaves
the node and history stores unchanged; it upserts the pending-read record
for `(node, agent)` to the node's current version and content (overwriting
any previous record, so a second consecutive call just refreshes it) while
leaving other pending records alone, and removes any stored conflict for
that `(agent, node)` pair from the agent's conflict list (deleting the key
when the list empties, leaving the conflicts store unchanged when the agent
had none). -/
theorem c8_read_for_edit_spec (st : NiwaState) (node_id agent_id : String)
    (n : Node) (now : Nat) (hn : alookup st.nodes node_id = some n) :
    (read_for_edit st node_id agent_id now).1 = some n ∧
    (read_for_edit st node_id agent_id now).2.nodes = st.nodes ∧
    (read_for_edit st node_id agent_id now).2.history = st.history ∧
    alookup (read_for_edit st node_id agent_id now).2.pending (node_id ++ ":" ++ agent_id) =
      some { agent_id := agent_id, node_id := node_id, read_version := n.version,
             read_at := now, base_content := n.content } ∧
    (∀ k, k ≠ node_id ++ ":" ++ agent_id →
      alookup (read_for_edit st node_id agent_id now).2.pending k = alookup st.pending k) ∧
    (alookup st.meta ("conflicts:" ++ agent_id) = none →
      (read_for_edit st node_id agent_id now).2.meta = st.meta) ∧
    (∀ cs, alookup st.meta ("conflicts:" ++ agent_id) = some cs →
      alookup (read_for_edit st node_id agent_id now).2.meta ("conflicts:" ++ agent_id) =
        (if cs.filter (fun sc => sc.node_id != node_id) = [] then none
         else some (cs.filter (fun sc => sc.node_id != node_id)))) := by
  unfold read_for_edit
  rw [hn]
  refine ⟨rfl, rfl, rfl, alookup_aput_self _ _ _,
    fun k hk => alookup_aput_ne _ _ _ _ hk, ?_, ?_⟩
  · intro h0
    simp only []
    rw [h0]
  · intro cs2 hcs2
    simp only []
    rw [hcs2]
    simp only []
    by_cases he : cs2.filter (fun sc => sc.node_id != node_id) = []
    · rw [if_pos he, if_pos he]
      exact alookup_adel_self _ _
    · rw [if_neg he, if_neg he]
      exact alookup_aput_self _ _ _

/-- C9: for an existing node, every invalid resolution request — an unknown
resolution kind, `MANUAL_MERGE` without manual content, `ACCEPT_AUTO_MERGE`
when no auto-merged content was computed (no conflict supplied or none
recorded in it), or `ACCEPT_YOURS` without a conflict object — makes
`resolve_conflict` return failure and leaves the entire store unchanged. -/
theorem c9_invalid_resolutions_fail_without_mutation (st : NiwaState)
    (node_id : String) (n : Node) (hn : alookup st.nodes node_id = some n)
    (agent_id : String) (mc : Option String) (cf : Option ConflictAnalysis)
    (now : Nat) :
    (∀ r : String, r ≠ "ACCEPT_YOURS" → r ≠ "ACCEPT_THEIRS" →
      r ≠ "ACCEPT_AUTO_MERGE" → r ≠ "MANUAL_MERGE" →
      (resolve_conflict st node_id r agent_id mc cf now).1.success = false ∧
      (resolve_conflict st node_id r agent_id mc cf now).2 = st) ∧
    ((resolve_conflict st node_id "MANUAL_MERGE" agent_id none cf now).1.success = false ∧
     (resolve_conflict st node_id "MANUAL_MERGE" agent_id none cf now).2 = st) ∧
    ((∀ cc, cf = some cc → cc.auto_merged_content = none) →
      (resolve_conflict st node_id "ACCEPT_AUTO_MERGE" agent_id mc cf now).1.success = false ∧
      (resolve_conflict st node_id "ACCEPT_AUTO_MERGE" agent_id mc cf now).2 = st) ∧
    ((resolve_conflict st node_id "ACCEPT_YOURS" agent_id mc none now).1.success = false ∧
     (resolve_conflict st node_id "ACCEPT_YOURS" agent_id mc none now).2 = st) := by
  refine ⟨?_, ?_, ?_, ?_⟩
  · intro r h1 h2 h3 h4
    unfold resolve_conflict
    rw [hn]
    rcases cf with _ | cc
    · simp only []
      rw [if_neg h1, if_neg h2, if_neg h3, if_neg h4]
      exact ⟨rfl, rfl⟩
    · simp only []
      by_cases hstale : n.version ≠ cc.current_version
      · rw [if_pos hstale]
        exact ⟨rfl, rfl⟩
      · rw [if_neg hstale]
        simp only []
        rw [if_neg h1, if_neg h2, if_neg h3, if_neg h4]
        exact ⟨rfl, rfl⟩
  · unfold resolve_conflict
    rw [hn]
    rcases cf with _ | cc
    · simp only []
      rw [if_neg (by decide : ¬("MANUAL_MERGE" = "ACCEPT_YOURS"))]
      rw [if_neg (by decide : ¬("MANUAL_MERGE" = "ACCEPT_THEIRS"))]
      rw [if_neg (by decide : ¬("MANUAL_MERGE" = "ACCEPT_AUTO_MERGE"))]
      rw [if_pos trivial]
      exact ⟨rfl, rfl⟩
    · simp only []
      by_cases hstale : n.version ≠ cc.current_version
      · rw [if_pos hstale]
        exact ⟨rfl, rfl⟩
      · rw [if_neg hstale]
        simp only []
        rw [if_neg (by decide : ¬("MANUAL_MERGE" = "ACCEPT_YOURS"))]
        rw [if_neg (by decide : ¬("MANUAL_MERGE" = "ACCEPT_THEIRS"))]
        rw [if_neg (by decide : ¬("MANUAL_MERGE" = "ACCEPT_AUTO_MERGE"))]
        rw [if_pos trivial]
        exact ⟨rfl, rfl⟩
  · intro hnone
    unfold resolve_conflict
    rw [hn]
    rcases cf with _ | cc
    · simp only []
      rw [if_neg (by decide : ¬("ACCEPT_AUTO_MERGE" = "ACCEPT_YOURS"))]
      rw [if_neg (by decide : ¬("ACCEPT_AUTO_MERGE" = "ACCEPT_THEIRS"))]
      rw [if_pos trivial]
      exact ⟨rfl, rfl⟩
    · simp only []
      by_cases hstale : n.version ≠ cc.current_version
      · rw [if_pos hstale]
        exact ⟨rfl, rfl⟩
      · rw [if_neg hstale]
        simp only []
        rw [if_neg (by decide : ¬("ACCEPT_AUTO_MERGE" = "ACCEPT_YOURS"))]
        rw [if_neg (by decide : ¬("ACCEPT_AUTO_MERGE" = "ACCEPT_THEIRS"))]
        rw [if_pos trivial]
        rw [hnone cc rfl]
        exact ⟨rfl, rfl⟩
  · unfold resolve_conflict
    rw [hn]
    simp only []
    rw [if_pos trivial]
    exact ⟨rfl, rfl⟩

/-- C10: for an existing node, `update_title` (respectively
`update_summary`) succeeds and rewrites the node to the record-update that
changes only `title` (respectively `summary`) and `updated_at` — so
`version`, `content`, `edit_history`, `children` and `parent_id` are
unchanged — touches no other node, and leaves the history, pending-read and
conflict stores untouched, making these operations invisible to conflict
detection. -/
theorem c10_title_summary_frame (st : NiwaState) (node_id : String) (n : Node)
    (hn : alookup st.nodes node_id = some n) (t s2 agent_id : String) (now : Nat) :
    ((update_title st node_id t agent_id now).1.success = true ∧
     alookup (update_title st node_id t agent_id now).2.nodes node_id =
       some { n with title := t, updated_at := now } ∧
     (∀ k, k ≠ node_id → alookup (update_title st node_id t agent_id now).2.nodes k =
       alookup st.nodes k) ∧
     (update_title st node_id t agent_id now).2.history = st.history ∧
     (update_title st node_id t agent_id now).2.pending = st.pending ∧
     (update_title st node_id t agent_id now).2.meta = st.meta) ∧
    ((update_summary st node_id s2 agent_id now).1.success = true ∧
     alookup (update_summary st node_id s2 agent_id now).2.nodes node_id =
       some { n with summary := some s2, updated_at := now } ∧
     (∀ k, k ≠ node_id → alookup (update_summary st node_id s2 agent_id now).2.nodes k =
       alookup st.nodes k) ∧
     (update_summary st node_id s2 agent_id now).2.history = st.history ∧
     (update_summary st node_id s2 agent_id now).2.pending = st.pending ∧
     (update_summary st node_id s2 agent_id now).2.meta = st.meta) := by
  unfold update_title update_summary
  rw [hn]
  exact ⟨⟨rfl, alookup_aput_self _ _ _, fun k hk => alookup_aput_ne _ _ _ _ hk,
          rfl, rfl, rfl⟩,
         ⟨rfl, alookup_aput_self _ _ _, fun k hk => alookup_aput_ne _ _ _ _ hk,
          rfl, rfl, rfl⟩⟩

/-- C2 witness: the version-bump theorem applied to a concrete store. -/
theorem c2_witness :
    alookup stW.nodes "n1" = some nodeA ∧
    nodeA.id = "n1" ∧
    (((edit_node stW "n1" "X" "B" none "prompt" 5).1.success = true →
       ∃ n', alookup (edit_node stW "n1" "X" "B" none "prompt" 5).2.nodes "n1" = some n' ∧
         n'.version = nodeA.version + 1) ∧
     ((resolve_conflict stW "n1" "MANUAL_MERGE" "B" (some "M") none 5).1.success = true →
       "MANUAL_MERGE" ≠ "ACCEPT_THEIRS" →
       ∃ n', alookup (resolve_conflict stW "n1" "MANUAL_MERGE" "B" (some "M") none 5).2.nodes
           "n1" = some n' ∧
         n'.version = nodeA.version + 1)) :=
  ⟨by decide, by decide,
   c2_version_bumps_by_exactly_one stW "n1" nodeA (by decide) (by decide)
     "X" "B" none "prompt" "MANUAL_MERGE" "B" (some "M") none 5⟩

/-- C3 witness: a caught-up edit on a concrete store. -/
theorem c3_witness :
    alookup stW.nodes "n1" = some nodeA ∧
    nodeA.id = "n1" ∧
    (∀ p : PendingRead, alookup stW.pending ("n1" ++ ":" ++ "A") = some p →
      p.read_version = nodeA.version) ∧
    ((edit_node stW "n1" "NEW" "A" none "prompt" 7).1.success = true ∧
     (edit_node stW "n1" "NEW" "A" none "prompt" 7).1.conflict = none ∧
     ∃ n', alookup (edit_node stW "n1" "NEW" "A" none "prompt" 7).2.nodes "n1" = some n' ∧
       n'.content = "NEW" ∧ n'.version = nodeA.version + 1) :=
  ⟨by decide, by decide, fun p hp => Option.noConfusion hp,
   c3_caught_up_edit_succeeds stW "n1" nodeA (by decide) (by decide) "NEW" "A" none "prompt" 7
     (fun p hp => Option.noConfusion hp)⟩

/-- C4 witness: a stale resolve against a concrete store. -/
theorem c4_witness :
    alookup stW.nodes "n1" = some nodeA ∧
    nodeA.version ≠ cfW.current_version ∧
    ((resolve_conflict stW "n1" "ACCEPT_YOURS" "B" none (some cfW) 9).1.success = false ∧
     (resolve_conflict stW "n1" "ACCEPT_YOURS" "B" none (some cfW) 9).1.message =
       "Version changed during resolution. Expected " ++ toString cfW.current_version ++
         ", got " ++ toString nodeA.version ++ ". Please retry." ∧
     (resolve_conflict stW "n1" "ACCEPT_YOURS" "B" none (some cfW) 9).2 = stW) :=
  ⟨by decide, by decide,
   c4_stale_resolve_fails stW "n1" nodeA (by decide) "ACCEPT_YOURS" "B" none cfW 9 (by decide)⟩

/-- C6 witness: `ACCEPT_THEIRS` as a no-op on a concrete store, followed by
a second agent's successful resolve against the unchanged version. -/
theorem c6_witness :
    alookup stW.nodes "n1" = some nodeA ∧
    cfW1.current_version = nodeA.version ∧
    ((resolve_conflict stW "n1" "ACCEPT_THEIRS" "A" none (some cfW1) 3).1.success = true ∧
     (resolve_conflict stW "n1" "ACCEPT_THEIRS" "A" none (some cfW1) 3).1.new_version =
       some nodeA.version ∧
     (resolve_conflict stW "n1" "ACCEPT_THEIRS" "A" none (some cfW1) 3).2 = stW ∧
     (resolve_conflict (resolve_conflict stW "n1" "ACCEPT_THEIRS" "A" none (some cfW1) 3).2
       "n1" "ACCEPT_YOURS" "B" none (some cfW1) 4).1.success = true) :=
  ⟨by decide, by decide,
   c6_accept_theirs_is_noop stW "n1" nodeA (by decide) "A" "B" none none (some cfW1)
     (fun cc h => by cases h; decide) cfW1 (by decide) 3 4⟩

/-- C7 witness: a prompted conflict on a concrete store with a stale
pending read. -/
theorem c7_witness :
    alookup stW2.nodes "n1" = some nodeB ∧
    alookup stW2.pending ("n1" ++ ":" ++ "B") = some pendB ∧
    pendB.read_version ≠ nodeB.version ∧
    ((edit_node stW2 "n1" "Z1\nL2\nL3" "B" none "prompt" 6).1.success = false ∧
     (∃ ca, (edit_node stW2 "n1" "Z1\nL2\nL3" "B" none "prompt" 6).1.conflict = some ca) ∧
     (edit_node stW2 "n1" "Z1\nL2\nL3" "B" none "prompt" 6).2.nodes = stW2.nodes ∧
     (edit_node stW2 "n1" "Z1\nL2\nL3" "B" none "prompt" 6).2.history = stW2.history ∧
     (edit_node stW2 "n1" "Z1\nL2\nL3" "B" none "prompt" 6).2.meta = stW2.meta) :=
  ⟨by decide, by decide, by decide,
   c7_prompt_conflict_leaves_node_untouched stW2 "n1" nodeB (by decide) pendB
     "Z1\nL2\nL3" "B" none 6 (by decide) (by decide)⟩

/-- C8 witness: `read_for_edit` on a concrete store. -/
theorem c8_witness :
    alookup stW.nodes "n1" = some nodeA ∧
    ((read_for_edit stW "n1" "A" 8).1 = some nodeA ∧
     (read_for_edit stW "n1" "A" 8).2.nodes = stW.nodes ∧
     (read_for_edit stW "n1" "A" 8).2.history = stW.history ∧
     alookup (read_for_edit stW "n1" "A" 8).2.pending ("n1" ++ ":" ++ "A") =
       some { agent_id := "A", node_id := "n1", read_version := nodeA.version,
              read_at := 8, base_content := nodeA.content } ∧
     (∀ k, k ≠ "n1" ++ ":" ++ "A" →
       alookup (read_for_edit stW "n1" "A" 8).2.pending k = alookup stW.pending k) ∧
     (alookup stW.meta ("conflicts:" ++ "A") = none →
       (read_for_edit stW "n1" "A" 8).2.meta = stW.meta) ∧
     (∀ cs, alookup stW.meta ("conflicts:" ++ "A") = some cs →
       alookup (read_for_edit stW "n1" "A" 8).2.meta ("conflicts:" ++ "A") =
         (if cs.filter (fun sc => sc.node_id != "n1") = [] then none
          else some (cs.filter (fun sc => sc.node_id != "n1"))))) :=
  ⟨by decide, c8_read_for_edit_spec stW "n1" "A" nodeA 8 (by decide)⟩

/-- C9 witness: the invalid-resolution theorem applied to a concrete store. -/
theorem c9_witness :
    alookup stW.nodes "n1" = some nodeA ∧
    ((∀ r : String, r ≠ "ACCEPT_YOURS" → r ≠ "ACCEPT_THEIRS" →
        r ≠ "ACCEPT_AUTO_MERGE" → r ≠ "MANUAL_MERGE" →
        (resolve_conflict stW "n1" r "B" none none 2).1.success = false ∧
        (resolve_conflict stW "n1" r "B" none none 2).2 = stW) ∧
     ((resolve_conflict stW "n1" "MANUAL_MERGE" "B" none none 2).1.success = false ∧
      (resolve_conflict stW "n1" "MANUAL_MERGE" "B" none none 2).2 = stW) ∧
     ((∀ cc, (none : Option ConflictAnalysis) = some cc → cc.auto_merged_content = none) →
       (resolve_conflict stW "n1" "ACCEPT_AUTO_MERGE" "B" none none 2).1.success = false ∧
       (resolve_conflict stW "n1" "ACCEPT_AUTO_MERGE" "B" none none 2).2 = stW) ∧
     ((resolve_conflict stW "n1" "ACCEPT_YOURS" "B" none none 2).1.success = false ∧
      (resolve_conflict stW "n1" "ACCEPT_YOURS" "B" none none 2).2 = stW)) :=
  ⟨by decide,
   c9_invalid_resolutions_fail_without_mutation stW "n1" nodeA (by decide) "B" none none 2⟩

/-- C10 witness: title and summary updates on a concrete store. -/
theorem c10_witness :
    alookup stW.nodes "n1" = some nodeA ∧
    (((update_title stW "n1" "T2" "sys" 11).1.success = true ∧
      alookup (update_title stW "n1" "T2" "sys" 11).2.nodes "n1" =
        some { nodeA with title := "T2", updated_at := 11 } ∧
      (∀ k, k ≠ "n1" → alookup (update_title stW "n1" "T2" "sys" 11).2.nodes k =
        alookup stW.nodes k) ∧
      (update_title stW "n1" "T2" "sys" 11).2.history = stW.history ∧
      (update_title stW "n1" "T2" "sys" 11).2.pending = stW.pending ∧
      (update_title stW "n1" "T2" "sys" 11).2.meta = stW.meta) ∧
     ((update_summary stW "n1" "S2" "sys" 11).1.success = true ∧
      alookup (update_summary stW "n1" "S2" "sys" 11).2.nodes "n1" =
        some { nodeA with summary := some "S2", updated_at := 11 } ∧
      (∀ k, k ≠ "n1" → alookup (update_summary stW "n1" "S2" "sys" 11).2.nodes k =
        alookup stW.nodes k) ∧
      (update_summary stW "n1" "S2" "sys" 11).2.history = stW.history ∧
      (update_summary stW "n1" "S2" "sys" 11).2.pending = stW.pending ∧
      (update_summary stW "n1" "S2" "sys" 11).2.meta = stW.meta)) :=
  ⟨by decide, c10_title_summary_frame stW "n1" nodeA (by decide) "T2" "S2" "sys" 11⟩

end Niwa
